import Mathlib

/-!
Shallow embedding of the AppMove client (src/app.tsx): the Session
Controller (authentication bootstrap and auth-state-change handling in the
App component) and the Ride Flow Controller (destination confirmation,
realtime ride updates, cancellation, payment selection), together with the
sign-up and reset-password form state.  Pure functions mirror the source
handlers; external effects (alerts, navigation, backend writes) are
reified as an ordered list of Effect values emitted by each handler.
-/

/-- Screen enumeration imported by src/app.tsx from ./types; the variants
are exactly those dispatched in the App render switch (src/app.tsx lines
715-729). -/
inductive Screen where
  | SplashScreen | Login | SignUp | SignUpSuccess | ForgotPassword
  | ResetPassword | MainMap | SearchDestination | Profile | History
  | Payments | AddCard | Settings | ScheduledRides
deriving DecidableEq, Repr

/-- Client-local ride stage (src/app.tsx line 27). -/
inductive Stage where
  | none | confirming_details | searching | driver_en_route | in_progress | rating
deriving DecidableEq, Repr

/-- Payment method type (src/app.tsx line 37). -/
inductive PayType where
  | money | pix | card
deriving DecidableEq, Repr

/-- Vehicle class (src/app.tsx line 33). -/
inductive Vehicle where
  | Simples | Conforto
deriving DecidableEq, Repr

/-- RideState (src/app.tsx lines 26-40).  The source field named from is
called fromLoc here because from is reserved in Lean; numbers are modelled
as rationals. -/
structure RideState where
  stage : Stage
  fromLoc : Option String
  toLoc : Option String
  originLat : Option ℚ
  originLng : Option ℚ
  stops : List String
  vehicle : Option Vehicle
  estimatedPrice : Option String
  rideId : Option Nat
  driverId : Option String
  paymentMethodType : PayType
  paymentMethodId : Option Nat
  paymentMethodLabel : String
deriving DecidableEq, Repr

/-- initialRideState (src/app.tsx lines 42-56). -/
def initialRideState : RideState :=
  { stage := Stage.none
  , fromLoc := none
  , toLoc := none
  , originLat := none
  , originLng := none
  , stops := []
  , vehicle := none
  , estimatedPrice := none
  , rideId := none
  , driverId := none
  , paymentMethodType := PayType.money
  , paymentMethodId := none
  , paymentMethodLabel := "Dinheiro" }

/-- Row carried by a realtime UPDATE event on the rides table, as read by
the handler in MainMapScreen (src/app.tsx lines 319-334): the status
string and the driver foreign key. -/
structure RidePayload where
  status : String
  driver_id : Option String
deriving DecidableEq, Repr

/-- Columns of the rides insert issued by handleConfirm (src/app.tsx
lines 442-457). -/
structure RideInsertPayload where
  user_id : String
  from_location : String
  to_location : String
  origin_latitude : ℚ
  origin_longitude : ℚ
  estimated_price : ℚ
  payment_method : PayType
  status : String
deriving DecidableEq, Repr

/-- External effects emitted by the handlers, in program order: blocking
alerts, navigation assignments, the on-demand geolocation request, and
the backend ride insert. -/
inductive Effect where
  | alert (msg : String)
  | navigate (sc : Screen)
  | geoFetch
  | insertRide (p : RideInsertPayload)
deriving DecidableEq, Repr

/-- Realtime ride row-update handler (src/app.tsx lines 319-335): an
if-chain on the status string; CANCELLED resets to initialRideState and
raises a blocking alert; an unrecognized status leaves the state alone. -/
def rideUpdateStep (s : RideState) (p : RidePayload) : RideState × List Effect :=
  if p.status = "ACCEPTED" then
    ({ s with stage := Stage.driver_en_route, driverId := p.driver_id }, [])
  else if p.status = "IN_PROGRESS" then
    ({ s with stage := Stage.in_progress }, [])
  else if p.status = "COMPLETED" then
    ({ s with stage := Stage.rating }, [])
  else if p.status = "CANCELLED" then
    (initialRideState, [Effect.alert "Sua corrida foi cancelada pelo motorista."])
  else
    (s, [])

/-- Cancel button of RideRequestSheet (src/app.tsx line 525): the click
handler assigns initialRideState unconditionally. -/
def cancelRide (_s : RideState) : RideState := initialRideState

/-- selectMethod of PaymentsScreen (src/app.tsx lines 586-588): a pure
record update of the three payment fields; the second component is the
list of emitted external effects, empty because the source performs no
backend call here. -/
def selectMethod (s : RideState) (t : PayType) (pid : Option Nat) (label : String) :
    RideState × List Effect :=
  ({ s with paymentMethodType := t, paymentMethodId := pid, paymentMethodLabel := label }, [])

/-- Guard on the destination text (src/app.tsx line 404): the source
tests falsiness of to.trim(), which holds exactly when every character of
the string is whitespace. -/
def blankAfterTrim (s : String) : Bool := s.data.all Char.isWhitespace

/-- JavaScript falsiness of a nullable number as used by the coordinate
guard in handleConfirm (src/app.tsx line 415): null and 0 are falsy. -/
def falsyNum : Option ℚ → Bool
  | none => true
  | some q => q = 0

/-- Optimistic state update performed by handleConfirm before the backend
write (src/app.tsx lines 430-437). -/
def confirmOptimistic (s : RideState) (fromLoc toDest : String) (la ln : ℚ) : RideState :=
  { s with stage := Stage.searching
         , fromLoc := some fromLoc
         , toLoc := some toDest
         , originLat := some la
         , originLng := some ln }

/-- handleConfirm of SearchDestinationScreen (src/app.tsx lines 403-473),
with its asynchronous collaborators passed in as resolved values: geo is
the result of the on-demand geolocation request (none = failure) and
insertRes the result of the rides insert (ok carries the new row id).
Returns the final RideState together with the emitted effects in program
order. -/
def handleConfirm (user : Option String) (fromLoc toDest : String) (rs : RideState)
    (geo : Option (ℚ × ℚ)) (insertRes : Except Unit Nat) : RideState × List Effect :=
  if blankAfterTrim toDest then (rs, [])
  else
    match user with
    | none => (rs, [Effect.alert "Sessão expirada. Faça login novamente."])
    | some uid =>
      let needFetch : Bool := falsyNum rs.originLat || falsyNum rs.originLng
      let fetchActs : List Effect := if needFetch then [Effect.geoFetch] else []
      let coords : Option (ℚ × ℚ) :=
        if needFetch then geo
        else some (rs.originLat.getD 0, rs.originLng.getD 0)
      match coords with
      | none =>
        (rs, fetchActs ++ [Effect.alert "Ative seu GPS para pedir uma corrida."])
      | some (la, ln) =>
        let rs1 := confirmOptimistic rs fromLoc toDest la ln
        let payload : RideInsertPayload :=
          { user_id := uid
          , from_location := fromLoc
          , to_location := toDest
          , origin_latitude := la
          , origin_longitude := ln
          , estimated_price := 259/10
          , payment_method := rs.paymentMethodType
          , status := "REQUESTED" }
        match insertRes with
        | Except.ok rid =>
          ({ rs1 with rideId := some rid }
          , fetchActs ++ [Effect.navigate Screen.MainMap, Effect.insertRide payload])
        | Except.error _ =>
          (initialRideState
          , fetchActs ++ [Effect.navigate Screen.MainMap, Effect.insertRide payload,
              Effect.alert "Não foi possível processar seu pedido."])

/-- One asynchronous occurrence affecting RideState: the optimistic
destination confirmation (src/app.tsx lines 430-438), the resolution of
the rides insert (success with the new row id, lines 461-464, or failure,
line 469), the cancel button (line 525), a realtime row update
(lines 319-335), and a payment selection (lines 586-588). -/
inductive RideEvent where
  | confirmDest (fromLoc toDest : String) (la ln : ℚ)
  | insertOk (rid : Nat)
  | insertFail
  | cancelPress
  | realtime (p : RidePayload)
  | selectPay (t : PayType) (pid : Option Nat) (label : String)
deriving DecidableEq, Repr

/-- Effect of one RideEvent on RideState, each case taken verbatim from
the corresponding handler in src/app.tsx.  The insertOk case applies the
functional update of line 462, which copies the previous state and sets
only rideId, to whatever the state is when the response resolves. -/
def rideStep (s : RideState) : RideEvent → RideState
  | RideEvent.confirmDest f t la ln => confirmOptimistic s f t la ln
  | RideEvent.insertOk rid => { s with rideId := some rid }
  | RideEvent.insertFail => initialRideState
  | RideEvent.cancelPress => cancelRide s
  | RideEvent.realtime p => (rideUpdateStep s p).1
  | RideEvent.selectPay t pid lb => (selectMethod s t pid lb).1

/-- States reachable from initialRideState when every event fires only
under its enabling condition: confirmation from the search screen while
no ride is staged, insert resolution while the optimistic searching stage
is still current, the cancel button while the request sheet is shown
(stage not none), and realtime updates only while the ride subscription
exists (rideId non-null). -/
inductive GReachable : RideState → Prop
  | init : GReachable initialRideState
  | confirmDest {s f t la ln} : GReachable s → s.stage = Stage.none →
      GReachable (rideStep s (RideEvent.confirmDest f t la ln))
  | insertOk {s rid} : GReachable s → s.stage = Stage.searching →
      GReachable (rideStep s (RideEvent.insertOk rid))
  | insertFail {s} : GReachable s → GReachable (rideStep s RideEvent.insertFail)
  | cancelPress {s} : GReachable s → s.stage ≠ Stage.none →
      GReachable (rideStep s RideEvent.cancelPress)
  | realtime {s p} : GReachable s → s.rideId ≠ none →
      GReachable (rideStep s (RideEvent.realtime p))
  | selectPay {s t pid lb} : GReachable s →
      GReachable (rideStep s (RideEvent.selectPay t pid lb))

/-- The spec §3 invariant on RideState: rideId only during an active
attempt, driverId only once a driver accepted. -/
def rideInv (s : RideState) : Prop :=
  (s.rideId ≠ none →
    s.stage = Stage.searching ∨ s.stage = Stage.driver_en_route ∨
    s.stage = Stage.in_progress ∨ s.stage = Stage.rating) ∧
  (s.driverId ≠ none →
    s.stage = Stage.driver_en_route ∨ s.stage = Stage.in_progress ∨
    s.stage = Stage.rating)

instance (s : RideState) : Decidable (rideInv s) := by
  unfold rideInv; infer_instance

-- --- SESSION CONTROLLER (App component, src/app.tsx lines 677-733) ---

/-- Opaque session credential; the only part the App component reads is
the optional user it carries (src/app.tsx lines 699, 705). -/
structure Session where
  user : Option String
deriving DecidableEq, Repr

/-- Auth-state-change events consumed by the listener registered in App
(src/app.tsx lines 704-708). -/
inductive AuthEvent where
  | passwordRecovery (s : Option Session)
  | signedIn (s : Option Session)
  | initialSession (s : Option Session)
  | signedOut
deriving DecidableEq, Repr

/-- State owned by the App component (src/app.tsx lines 678-684) plus
the recoveryInProgress ref and whether the 6-second safety timeout is
still pending (true until clearTimeout or expiry). -/
structure AppState where
  session : Option Session
  user : Option String
  screen : Screen
  loading : Bool
  recovery : Bool
  timerActive : Bool
deriving DecidableEq, Repr

/-- State at mount (src/app.tsx lines 678-684, 694-696): splash screen,
loading, safety timer armed, and the recovery latch set synchronously
when the URL carries a type=recovery marker. -/
def mountState (isRec : Bool) : AppState :=
  { session := none, user := none, screen := Screen.SplashScreen
  , loading := true, recovery := isRec, timerActive := true }

/-- handleInit (src/app.tsx lines 697-702): adopt the user carried by the
session; navigate and clear loading and the safety timer only when the
recovery latch is not set.  The asynchronous profile refresh is external
and its failure is non-fatal (line 690), so it does not appear here. -/
def handleInit (st : AppState) (sess : Option Session) : AppState :=
  match sess with
  | some se =>
    match se.user with
    | some u =>
      let st1 := { st with user := some u }
      if st1.recovery then st1
      else { st1 with screen := Screen.MainMap, loading := false, timerActive := false }
    | none =>
      if st.recovery then st
      else { st with screen := Screen.Login, loading := false, timerActive := false }
  | none =>
    if st.recovery then st
    else { st with screen := Screen.Login, loading := false, timerActive := false }

/-- The auth-state-change listener (src/app.tsx lines 704-708).
PASSWORD_RECOVERY sets the latch, adopts the session and user, navigates
to the reset-password screen, clears loading and cancels the timer.
SIGNED_IN and INITIAL_SESSION run setSession plus handleInit only when
the latch is not set, and are ignored entirely otherwise.  SIGNED_OUT
clears the latch, session and user, navigates to sign-in, clears loading
and cancels the timer. -/
def onAuthStateChange (st : AppState) : AuthEvent → AppState
  | AuthEvent.passwordRecovery s =>
    { st with recovery := true, session := s, user := s.bind Session.user
            , screen := Screen.ResetPassword, loading := false, timerActive := false }
  | AuthEvent.signedIn s =>
    if st.recovery then st else handleInit { st with session := s } s
  | AuthEvent.initialSession s =>
    if st.recovery then st else handleInit { st with session := s } s
  | AuthEvent.signedOut =>
    { st with recovery := false, session := none, user := none
            , screen := Screen.Login, loading := false, timerActive := false }

/-- Expiry of the 6-second safety timeout (src/app.tsx line 694).  The
callback closes over the loading and session values of the initial
render (the effect runs once, with an empty dependency array), which are
true and null, so both guards inside it always pass: when the timer has
not been cancelled, firing forces loading to false and the screen to
sign-in. -/
def safetyTimerFire (st : AppState) : AppState :=
  if st.timerActive then
    { st with loading := false, screen := Screen.Login, timerActive := false }
  else st

/-- Expiry of the 8-second recovery timeout (src/app.tsx line 696): its
callback reads the current recoveryInProgress ref but the stale captured
loading value (true), so it acts whenever the latch is still set. -/
def recoveryTimerFire (st : AppState) : AppState :=
  if st.recovery then { st with loading := false, screen := Screen.Login }
  else st

/-- Resolution of the startup getSession call (src/app.tsx line 703):
setSession followed by handleInit. -/
def sessionFetchResolve (st : AppState) (sess : Option Session) : AppState :=
  handleInit { st with session := sess } sess

/-- Any asynchronous input delivered to the App component after mount. -/
inductive AppInput where
  | authEvent (e : AuthEvent)
  | sessionFetched (s : Option Session)
  | timerFires
  | recoveryTimer
deriving DecidableEq, Repr

/-- Dispatch of one asynchronous input on the App state. -/
def appStep (st : AppState) : AppInput → AppState
  | AppInput.authEvent e => onAuthStateChange st e
  | AppInput.sessionFetched s => sessionFetchResolve st s
  | AppInput.timerFires => safetyTimerFire st
  | AppInput.recoveryTimer => recoveryTimerFire st

-- --- FORM STATE (SignUpScreen and ResetPasswordScreen) ---

/-- Text field state of SignUpScreen (src/app.tsx lines 137-141). -/
structure SignUpForm where
  fullName : String
  phone : String
  email : String
  password : String
  confirmPassword : String
deriving DecidableEq, Repr

def initialSignUpForm : SignUpForm :=
  { fullName := "", phone := "", email := "", password := "", confirmPassword := "" }

/-- One input event on a SignUpScreen field, carrying the new text. -/
inductive SignUpInput where
  | fullNameInput (v : String)
  | phoneInput (v : String)
  | emailInput (v : String)
  | passwordInput (v : String)
  | confirmPasswordInput (v : String)
deriving DecidableEq, Repr

/-- onChange handlers of the SignUpScreen inputs (src/app.tsx lines
158-162).  The confirm-password field calls setPassword, not
setConfirmPassword (line 162), so its input updates password. -/
def signUpStep (f : SignUpForm) : SignUpInput → SignUpForm
  | SignUpInput.fullNameInput v => { f with fullName := v }
  | SignUpInput.phoneInput v => { f with phone := v }
  | SignUpInput.emailInput v => { f with email := v }
  | SignUpInput.passwordInput v => { f with password := v }
  | SignUpInput.confirmPasswordInput v => { f with password := v }

/-- The mismatch test of handleSignUp (src/app.tsx line 147). -/
def signUpMismatch (f : SignUpForm) : Bool := f.password ≠ f.confirmPassword

/-- Text field state of ResetPasswordScreen (src/app.tsx lines 203-204). -/
structure ResetForm where
  password : String
  confirmPassword : String
deriving DecidableEq, Repr

def initialResetForm : ResetForm := { password := "", confirmPassword := "" }

/-- One input event on a ResetPasswordScreen field. -/
inductive ResetInput where
  | passwordInput (v : String)
  | confirmPasswordInput (v : String)
deriving DecidableEq, Repr

/-- onChange handlers of the ResetPasswordScreen inputs (src/app.tsx line
219).  As in SignUpScreen, the confirm field calls setPassword. -/
def resetStep (f : ResetForm) : ResetInput → ResetForm
  | ResetInput.passwordInput v => { f with password := v }
  | ResetInput.confirmPasswordInput v => { f with password := v }

/-- The mismatch test of handleReset (src/app.tsx line 209). -/
def resetMismatch (f : ResetForm) : Bool := f.password ≠ f.confirmPassword

/-- Interleaving in which the rides insert resolves only after the user
has pressed cancel: confirm optimistically, cancel, then the delayed
insert success lands on the reset state. -/
def lateInsertTrace : List RideEvent :=
  [ RideEvent.confirmDest "Rua A, 123" "Shopping Center" (-2355/100) (-4663/100)
  , RideEvent.cancelPress
  , RideEvent.insertOk 1 ]

/-- The RideState produced by lateInsertTrace. -/
def lateInsertState : RideState := List.foldl rideStep initialRideState lateInsertTrace

-- --- THEOREMS ---

/-- Single-event preservation of the recovery latch: once the latch is
set and the reset-password screen is current, any auth event other than
SIGNED_OUT leaves both in place. -/
theorem recovery_latch_step (st : AppState) (e : AuthEvent)
    (hrec : st.recovery = true) (hscr : st.screen = Screen.ResetPassword)
    (hne : e ≠ AuthEvent.signedOut) :
    (onAuthStateChange st e).recovery = true ∧
    (onAuthStateChange st e).screen = Screen.ResetPassword := by
  cases e with
  | passwordRecovery s => exact ⟨rfl, rfl⟩
  | signedIn s => simp [onAuthStateChange, hrec, hscr]
  | initialSession s => simp [onAuthStateChange, hrec, hscr]
  | signedOut => exact absurd rfl hne

/-- C1: once a PASSWORD_RECOVERY event has been handled, no later
sequence of auth events free of SIGNED_OUT moves currentScreen away from
the reset-password screen; and handling SIGNED_OUT clears the latch and
navigates to the sign-in screen. -/
theorem password_recovery_latch (st : AppState) (s? : Option Session)
    (l : List AuthEvent) (hno : ∀ e ∈ l, e ≠ AuthEvent.signedOut) :
    (l.foldl onAuthStateChange
        (onAuthStateChange st (AuthEvent.passwordRecovery s?))).screen =
      Screen.ResetPassword ∧
    (∀ st2 : AppState,
      (onAuthStateChange st2 AuthEvent.signedOut).screen = Screen.Login ∧
      (onAuthStateChange st2 AuthEvent.signedOut).recovery = false) := by
  constructor
  · have key : ∀ (l : List AuthEvent) (st0 : AppState),
        st0.recovery = true → st0.screen = Screen.ResetPassword →
        (∀ e ∈ l, e ≠ AuthEvent.signedOut) →
        (l.foldl onAuthStateChange st0).recovery = true ∧
        (l.foldl onAuthStateChange st0).screen = Screen.ResetPassword := by
      intro l
      induction l with
      | nil => intro st0 h1 h2 _; exact ⟨h1, h2⟩
      | cons e tl ih =>
        intro st0 h1 h2 hno
        have he := hno e (List.mem_cons_self e tl)
        have step := recovery_latch_step st0 e h1 h2 he
        exact ih _ step.1 step.2 (fun x hx => hno x (List.mem_cons_of_mem e hx))
    exact (key l _ rfl rfl hno).2
  · intro st2; exact ⟨rfl, rfl⟩

/-- Witness for password_recovery_latch at a concrete trace. -/
theorem password_recovery_latch_witness :
    (([AuthEvent.signedIn (some ⟨some "u1"⟩), AuthEvent.initialSession none].foldl
        onAuthStateChange
        (onAuthStateChange (mountState false)
          (AuthEvent.passwordRecovery (some ⟨some "u1"⟩)))).screen =
      Screen.ResetPassword) ∧
    (∀ st2 : AppState,
      (onAuthStateChange st2 AuthEvent.signedOut).screen = Screen.Login ∧
      (onAuthStateChange st2 AuthEvent.signedOut).recovery = false) :=
  password_recovery_latch (mountState false) (some ⟨some "u1"⟩)
    [AuthEvent.signedIn (some ⟨some "u1"⟩), AuthEvent.initialSession none] (by decide)

/-- C2 counterexample: a reachable state with the ride subscription
active (rideId set) and stage none, on which an IN_PROGRESS row update
advances the stage to in_progress instead of being ignored. -/
theorem in_progress_advances_from_none_cex :
    lateInsertState.stage = Stage.none ∧ lateInsertState.rideId = some 1 ∧
    (rideStep lateInsertState (RideEvent.realtime ⟨"IN_PROGRESS", none⟩)).stage =
      Stage.in_progress := by
  decide

/-- C2 amended: the realtime handler does not guard on the current
stage: an IN_PROGRESS update sets the stage to in_progress from any
current stage (including none and rating), and for every recognized
status the resulting stage is independent of the current stage. -/
theorem ride_update_stage_unguarded (s1 s2 : RideState) (p : RidePayload)
    (d : Option String)
    (h : p.status = "ACCEPTED" ∨ p.status = "IN_PROGRESS" ∨
         p.status = "COMPLETED" ∨ p.status = "CANCELLED") :
    (rideUpdateStep s1 ⟨"IN_PROGRESS", d⟩).1.stage = Stage.in_progress ∧
    (rideUpdateStep s1 p).1.stage = (rideUpdateStep s2 p).1.stage := by
  constructor
  · simp [rideUpdateStep]
  · rcases h with h | h | h | h <;> simp [rideUpdateStep, h]

/-- Witness for ride_update_stage_unguarded at concrete states. -/
theorem ride_update_stage_unguarded_witness :
    (rideUpdateStep initialRideState ⟨"IN_PROGRESS", none⟩).1.stage =
      Stage.in_progress ∧
    (rideUpdateStep initialRideState ⟨"COMPLETED", none⟩).1.stage =
      (rideUpdateStep lateInsertState ⟨"COMPLETED", none⟩).1.stage :=
  ride_update_stage_unguarded initialRideState lateInsertState
    ⟨"COMPLETED", none⟩ none (Or.inr (Or.inr (Or.inl rfl)))

/-- C3 counterexample: under the unrestricted interleaving in which the
ride-insert success resolves after the user has cancelled, the reachable
state has rideId non-null while stage is none, violating the invariant. -/
theorem ride_invariant_violated_cex :
    lateInsertState.rideId = some 1 ∧ lateInsertState.stage = Stage.none ∧
    ¬ rideInv lateInsertState := by
  refine ⟨by decide, by decide, by decide⟩

/-- C3 amended: the invariant does hold for every state reachable while
each event fires only under its enabling condition, in particular while
the insert resolution lands during the optimistic searching stage rather
than after a cancel. -/
theorem ride_invariant_guarded (s : RideState) (h : GReachable s) : rideInv s := by
  induction h with
  | init => decide
  | @confirmDest s f t la ln hg hstage ih =>
    have hd : s.driverId = none := by
      by_contra hne
      rcases ih.2 hne with h | h | h <;> rw [hstage] at h <;> simp at h
    exact ⟨fun _ => Or.inl rfl, fun hne => absurd hd hne⟩
  | @insertOk s rid hg hstage ih =>
    have hd : s.driverId = none := by
      by_contra hne
      rcases ih.2 hne with h | h | h <;> rw [hstage] at h <;> simp at h
    exact ⟨fun _ => Or.inl hstage, fun hne => absurd hd hne⟩
  | insertFail hg ih => exact (by decide : rideInv initialRideState)
  | cancelPress hg hne ih => exact (by decide : rideInv initialRideState)
  | @realtime s p hg hrid ih =>
    by_cases hA : p.status = "ACCEPTED"
    · simp only [rideStep, rideUpdateStep, hA, if_pos, if_true]
      exact ⟨fun _ => Or.inr (Or.inl rfl), fun _ => Or.inl rfl⟩
    · by_cases hI : p.status = "IN_PROGRESS"
      · simp only [rideStep, rideUpdateStep, hA, hI, if_false, if_true]
        exact ⟨fun _ => Or.inr (Or.inr (Or.inl rfl)), fun _ => Or.inr (Or.inl rfl)⟩
      · by_cases hC : p.status = "COMPLETED"
        · simp only [rideStep, rideUpdateStep, hA, hI, hC, if_false, if_true]
          exact ⟨fun _ => Or.inr (Or.inr (Or.inr rfl)), fun _ => Or.inr (Or.inr rfl)⟩
        · by_cases hX : p.status = "CANCELLED"
          · simp only [rideStep, rideUpdateStep, hA, hI, hC, hX, if_false, if_true]
            exact (by decide : rideInv initialRideState)
          · simpa only [rideStep, rideUpdateStep, hA, hI, hC, hX, if_false] using ih
  | @selectPay s t pid lb hg ih => exact ih

/-- Witness for ride_invariant_guarded on a guarded reachable state. -/
theorem ride_invariant_guarded_witness :
    rideInv (rideStep initialRideState (RideEvent.confirmDest "Rua A, 123" "Shopping Center" 1 2)) :=
  ride_invariant_guarded _ (GReachable.confirmDest GReachable.init rfl)

/-- C6: with a ride active, the cancel button resets RideState exactly
to initialRideState, and a CANCELLED row update also resets it exactly
to initialRideState (payment selection included) while raising a
user-visible cancellation alert. -/
theorem cancel_resets_ride_state (s : RideState) (d : Option String)
    (_h : s.rideId ≠ none) :
    cancelRide s = initialRideState ∧
    (rideUpdateStep s ⟨"CANCELLED", d⟩).1 = initialRideState ∧
    Effect.alert "Sua corrida foi cancelada pelo motorista." ∈
      (rideUpdateStep s ⟨"CANCELLED", d⟩).2 := by
  refine ⟨rfl, ?_, ?_⟩ <;> simp [rideUpdateStep]

/-- Witness for cancel_resets_ride_state with an active ride. -/
theorem cancel_resets_ride_state_witness :
    cancelRide { initialRideState with rideId := some 1, stage := Stage.driver_en_route } =
      initialRideState ∧
    (rideUpdateStep { initialRideState with rideId := some 1, stage := Stage.driver_en_route }
        ⟨"CANCELLED", some "d9"⟩).1 = initialRideState ∧
    Effect.alert "Sua corrida foi cancelada pelo motorista." ∈
      (rideUpdateStep { initialRideState with rideId := some 1, stage := Stage.driver_en_route }
        ⟨"CANCELLED", some "d9"⟩).2 :=
  cancel_resets_ride_state
    { initialRideState with rideId := some 1, stage := Stage.driver_en_route }
    (some "d9") (by decide)

/-- C8: payment-method selection emits no backend call and changes only
the three payment fields of RideState, leaving every other field
unchanged. -/
theorem select_payment_pure_frame (s : RideState) (t : PayType)
    (pid : Option Nat) (lb : String) :
    (selectMethod s t pid lb).2 = [] ∧
    (selectMethod s t pid lb).1.paymentMethodType = t ∧
    (selectMethod s t pid lb).1.paymentMethodId = pid ∧
    (selectMethod s t pid lb).1.paymentMethodLabel = lb ∧
    (selectMethod s t pid lb).1.stage = s.stage ∧
    (selectMethod s t pid lb).1.fromLoc = s.fromLoc ∧
    (selectMethod s t pid lb).1.toLoc = s.toLoc ∧
    (selectMethod s t pid lb).1.originLat = s.originLat ∧
    (selectMethod s t pid lb).1.originLng = s.originLng ∧
    (selectMethod s t pid lb).1.stops = s.stops ∧
    (selectMethod s t pid lb).1.vehicle = s.vehicle ∧
    (selectMethod s t pid lb).1.estimatedPrice = s.estimatedPrice ∧
    (selectMethod s t pid lb).1.rideId = s.rideId ∧
    (selectMethod s t pid lb).1.driverId = s.driverId :=
  ⟨rfl, rfl, rfl, rfl, rfl, rfl, rfl, rfl, rfl, rfl, rfl, rfl, rfl, rfl⟩

/-- C9: in both forms the confirm-password input updates the password
state, confirmPassword stays the initial empty string under every input
sequence, and the submit mismatch check fires whenever the submitted
password is non-empty. -/
theorem confirm_password_updates_password (su : List SignUpInput)
    (rp : List ResetInput) :
    (∀ (f : SignUpForm) (v : String),
      (signUpStep f (SignUpInput.confirmPasswordInput v)).password = v ∧
      (signUpStep f (SignUpInput.confirmPasswordInput v)).confirmPassword =
        f.confirmPassword) ∧
    (∀ (f : ResetForm) (v : String),
      (resetStep f (ResetInput.confirmPasswordInput v)).password = v ∧
      (resetStep f (ResetInput.confirmPasswordInput v)).confirmPassword =
        f.confirmPassword) ∧
    (su.foldl signUpStep initialSignUpForm).confirmPassword = "" ∧
    (rp.foldl resetStep initialResetForm).confirmPassword = "" ∧
    ((su.foldl signUpStep initialSignUpForm).password ≠ "" →
      signUpMismatch (su.foldl signUpStep initialSignUpForm) = true) ∧
    ((rp.foldl resetStep initialResetForm).password ≠ "" →
      resetMismatch (rp.foldl resetStep initialResetForm) = true) := by
  have hsu : ∀ (l : List SignUpInput) (f : SignUpForm),
      (l.foldl signUpStep f).confirmPassword = f.confirmPassword := by
    intro l
    induction l with
    | nil => intro f; rfl
    | cons i tl ih =>
      intro f
      rw [List.foldl_cons, ih]
      cases i <;> rfl
  have hrp : ∀ (l : List ResetInput) (f : ResetForm),
      (l.foldl resetStep f).confirmPassword = f.confirmPassword := by
    intro l
    induction l with
    | nil => intro f; rfl
    | cons i tl ih =>
      intro f
      rw [List.foldl_cons, ih]
      cases i <;> rfl
  refine ⟨fun f v => ⟨rfl, rfl⟩, fun f v => ⟨rfl, rfl⟩, hsu su _, hrp rp _, ?_, ?_⟩
  · intro hp
    simp [signUpMismatch, hsu su initialSignUpForm]
    simpa [hsu su initialSignUpForm] using hp
  · intro hp
    simp [resetMismatch, hrp rp initialResetForm]
    simpa [hrp rp initialResetForm] using hp

/-- Witness for confirm_password_updates_password on concrete input
sequences that type a password and then type into the confirm field. -/
theorem confirm_password_updates_password_witness :
    ([SignUpInput.passwordInput "abc",
      SignUpInput.confirmPasswordInput "abc"].foldl signUpStep
        initialSignUpForm).confirmPassword = "" ∧
    ([ResetInput.passwordInput "xyz",
      ResetInput.confirmPasswordInput "xyz"].foldl resetStep
        initialResetForm).confirmPassword = "" ∧
    signUpMismatch ([SignUpInput.passwordInput "abc",
      SignUpInput.confirmPasswordInput "abc"].foldl signUpStep
        initialSignUpForm) = true ∧
    resetMismatch ([ResetInput.passwordInput "xyz",
      ResetInput.confirmPasswordInput "xyz"].foldl resetStep
        initialResetForm) = true := by
  obtain ⟨-, -, h3, h4, h5, h6⟩ :=
    confirm_password_updates_password
      [SignUpInput.passwordInput "abc", SignUpInput.confirmPasswordInput "abc"]
      [ResetInput.passwordInput "xyz", ResetInput.confirmPasswordInput "xyz"]
  exact ⟨h3, h4, h5 (by decide), h6 (by decide)⟩

/-- After handleInit, loading is either cleared or unchanged: no branch
of the apply-session step sets it back to true. -/
theorem handleInit_loading (st : AppState) (sess : Option Session) :
    (handleInit st sess).loading = false ∨ (handleInit st sess).loading = st.loading := by
  unfold handleInit
  cases sess with
  | none => by_cases h : st.recovery <;> simp [h]
  | some se =>
    cases hu : se.user with
    | none => by_cases h : st.recovery <;> simp [hu, h]
    | some u => by_cases h : st.recovery <;> simp [hu, h]

/-- No asynchronous input ever turns loading back on: every setter call
in the source passes false after mount. -/
theorem appStep_loading_mono (st : AppState) (i : AppInput)
    (h : st.loading = false) : (appStep st i).loading = false := by
  cases i with
  | authEvent e =>
    cases e with
    | passwordRecovery s => rfl
    | signedIn s =>
      show (if st.recovery = true then st
            else handleInit { st with session := s } s).loading = false
      by_cases hr : st.recovery = true
      · rw [if_pos hr]; exact h
      · rw [if_neg hr]
        rcases handleInit_loading { st with session := s } s with h2 | h2
        · exact h2
        · rw [h2]; exact h
    | initialSession s =>
      show (if st.recovery = true then st
            else handleInit { st with session := s } s).loading = false
      by_cases hr : st.recovery = true
      · rw [if_pos hr]; exact h
      · rw [if_neg hr]
        rcases handleInit_loading { st with session := s } s with h2 | h2
        · exact h2
        · rw [h2]; exact h
    | signedOut => rfl
  | sessionFetched s =>
    show (sessionFetchResolve st s).loading = false
    unfold sessionFetchResolve
    rcases handleInit_loading { st with session := s } s with h2 | h2
    · exact h2
    · rw [h2]; exact h
  | timerFires =>
    show (safetyTimerFire st).loading = false
    unfold safetyTimerFire
    by_cases ht : st.timerActive <;> simp [ht, h]
  | recoveryTimer =>
    show (recoveryTimerFire st).loading = false
    unfold recoveryTimerFire
    by_cases hr : st.recovery <;> simp [hr, h]

/-- Once loading is false it stays false across any input sequence. -/
theorem foldl_loading_mono (l : List AppInput) (st : AppState)
    (h : st.loading = false) : (l.foldl appStep st).loading = false := by
  induction l generalizing st with
  | nil => exact h
  | cons i tl ih => exact ih _ (appStep_loading_mono st i h)

/-- C5: if the safety timer fires while still pending (no terminal
transition has cancelled it), loading becomes false and the screen
becomes sign-in, because the callback closes over the initial-render
loading and session values; and no later input ever sets loading back to
true. -/
theorem safety_timer_forces_signin (st : AppState)
    (h : st.timerActive = true) :
    (safetyTimerFire st).loading = false ∧
    (safetyTimerFire st).screen = Screen.Login ∧
    ∀ l : List AppInput, (l.foldl appStep (safetyTimerFire st)).loading = false := by
  have h1 : (safetyTimerFire st).loading = false := by
    unfold safetyTimerFire; simp [h]
  have h2 : (safetyTimerFire st).screen = Screen.Login := by
    unfold safetyTimerFire; simp [h]
  exact ⟨h1, h2, fun l => foldl_loading_mono l _ h1⟩

/-- Witness for safety_timer_forces_signin: the timer fires at mount
state and a session fetch resolving afterwards does not resurrect the
splash. -/
theorem safety_timer_forces_signin_witness :
    (safetyTimerFire (mountState false)).loading = false ∧
    (safetyTimerFire (mountState false)).screen = Screen.Login ∧
    ([AppInput.sessionFetched (some ⟨some "u1"⟩)].foldl appStep
        (safetyTimerFire (mountState false))).loading = false := by
  obtain ⟨h1, h2, h3⟩ := safety_timer_forces_signin (mountState false) rfl
  exact ⟨h1, h2, h3 _⟩

/-- C4: when a rider coordinate is obtained, handleConfirm emits the
navigation to the map screen before the rides insert (with no insert
earlier in the effect sequence), the optimistic state update used at
that point sets stage searching, and an insert failure rolls the state
back to initialRideState and raises an alert. -/
theorem confirm_optimistic_insert_rollback (user : Option String)
    (uid fromLoc toDest : String) (rs : RideState) (geo : Option (ℚ × ℚ))
    (insertRes : Except Unit Nat)
    (ht : blankAfterTrim toDest = false) (hu : user = some uid)
    (hc : (falsyNum rs.originLat || falsyNum rs.originLng) = false ∨ geo ≠ none) :
    (∃ pre post p,
      (handleConfirm user fromLoc toDest rs geo insertRes).2 =
        pre ++ [Effect.navigate Screen.MainMap, Effect.insertRide p] ++ post ∧
      ∀ q, Effect.insertRide q ∉ pre) ∧
    (∀ (s2 : RideState) (f t : String) (la ln : ℚ),
      (confirmOptimistic s2 f t la ln).stage = Stage.searching) ∧
    (∀ e, insertRes = Except.error e →
      (handleConfirm user fromLoc toDest rs geo insertRes).1 = initialRideState ∧
      Effect.alert "Não foi possível processar seu pedido." ∈
        (handleConfirm user fromLoc toDest rs geo insertRes).2) := by
  subst hu
  refine ⟨?_, fun s2 f t la ln => rfl, ?_⟩
  · by_cases hn : (falsyNum rs.originLat || falsyNum rs.originLng) = true
    · have hg : geo ≠ none := by
        rcases hc with hc | hc
        · rw [hn] at hc; exact absurd hc (by decide)
        · exact hc
      cases hgeo : geo with
      | none => exact absurd hgeo hg
      | some c =>
        obtain ⟨la, ln⟩ := c
        cases insertRes with
        | ok rid =>
          refine ⟨[Effect.geoFetch], [],
            { user_id := uid, from_location := fromLoc, to_location := toDest
            , origin_latitude := la, origin_longitude := ln
            , estimated_price := 259/10, payment_method := rs.paymentMethodType
            , status := "REQUESTED" }, ?_, ?_⟩
          · simp [handleConfirm, ht, hn, hgeo]
          · intro q hq; simp at hq
        | error e =>
          refine ⟨[Effect.geoFetch],
            [Effect.alert "Não foi possível processar seu pedido."],
            { user_id := uid, from_location := fromLoc, to_location := toDest
            , origin_latitude := la, origin_longitude := ln
            , estimated_price := 259/10, payment_method := rs.paymentMethodType
            , status := "REQUESTED" }, ?_, ?_⟩
          · simp [handleConfirm, ht, hn, hgeo]
          · intro q hq; simp at hq
    · have hn' : (falsyNum rs.originLat || falsyNum rs.originLng) = false := by
        revert hn; cases falsyNum rs.originLat || falsyNum rs.originLng <;> simp
      cases insertRes with
      | ok rid =>
        refine ⟨[], [],
          { user_id := uid, from_location := fromLoc, to_location := toDest
          , origin_latitude := rs.originLat.getD 0
          , origin_longitude := rs.originLng.getD 0
          , estimated_price := 259/10, payment_method := rs.paymentMethodType
          , status := "REQUESTED" }, ?_, ?_⟩
        · simp [handleConfirm, ht, hn']
        · intro q hq; simp at hq
      | error e =>
        refine ⟨[], [Effect.alert "Não foi possível processar seu pedido."],
          { user_id := uid, from_location := fromLoc, to_location := toDest
          , origin_latitude := rs.originLat.getD 0
          , origin_longitude := rs.originLng.getD 0
          , estimated_price := 259/10, payment_method := rs.paymentMethodType
          , status := "REQUESTED" }, ?_, ?_⟩
        · simp [handleConfirm, ht, hn']
        · intro q hq; simp at hq
  · intro e he
    subst he
    by_cases hn : (falsyNum rs.originLat || falsyNum rs.originLng) = true
    · have hg : geo ≠ none := by
        rcases hc with hc | hc
        · rw [hn] at hc; exact absurd hc (by decide)
        · exact hc
      cases hgeo : geo with
      | none => exact absurd hgeo hg
      | some c =>
        obtain ⟨la, ln⟩ := c
        constructor
        · simp [handleConfirm, ht, hn, hgeo]
        · simp [handleConfirm, ht, hn, hgeo]
    · have hn' : (falsyNum rs.originLat || falsyNum rs.originLng) = false := by
        revert hn; cases falsyNum rs.originLat || falsyNum rs.originLng <;> simp
      constructor
      · simp [handleConfirm, ht, hn']
      · simp [handleConfirm, ht, hn']

/-- Witness for confirm_optimistic_insert_rollback: stored coordinate
absent, geolocation succeeds, insert fails. -/
theorem confirm_optimistic_insert_rollback_witness :
    (∃ pre post p,
      (handleConfirm (some "u1") "Minha Localizacao" "Shopping Center"
          initialRideState (some (1, 2)) (Except.error ())).2 =
        pre ++ [Effect.navigate Screen.MainMap, Effect.insertRide p] ++ post ∧
      ∀ q, Effect.insertRide q ∉ pre) ∧
    (∀ (s2 : RideState) (f t : String) (la ln : ℚ),
      (confirmOptimistic s2 f t la ln).stage = Stage.searching) ∧
    (∀ e, (Except.error () : Except Unit Nat) = Except.error e →
      (handleConfirm (some "u1") "Minha Localizacao" "Shopping Center"
          initialRideState (some (1, 2)) (Except.error ())).1 = initialRideState ∧
      Effect.alert "Não foi possível processar seu pedido." ∈
        (handleConfirm (some "u1") "Minha Localizacao" "Shopping Center"
          initialRideState (some (1, 2)) (Except.error ())).2) :=
  confirm_optimistic_insert_rollback (some "u1") "u1" "Minha Localizacao"
    "Shopping Center" initialRideState (some (1, 2)) (Except.error ())
    (by decide) rfl (Or.inr (by decide))

/-- C7: with no stored rider coordinate and a failing on-demand
geolocation fetch, handleConfirm raises the GPS alert, issues no rides
insert, and leaves RideState (hence the stage, none) unchanged. -/
theorem confirm_aborts_without_coordinate (user : Option String)
    (uid fromLoc toDest : String) (rs : RideState) (insertRes : Except Unit Nat)
    (ht : blankAfterTrim toDest = false) (hu : user = some uid)
    (habs : rs.originLat = none ∨ rs.originLng = none)
    (hstage : rs.stage = Stage.none) :
    Effect.alert "Ative seu GPS para pedir uma corrida." ∈
      (handleConfirm user fromLoc toDest rs none insertRes).2 ∧
    (∀ p, Effect.insertRide p ∉ (handleConfirm user fromLoc toDest rs none insertRes).2) ∧
    (handleConfirm user fromLoc toDest rs none insertRes).1 = rs ∧
    (handleConfirm user fromLoc toDest rs none insertRes).1.stage = Stage.none := by
  subst hu
  have hn : (falsyNum rs.originLat || falsyNum rs.originLng) = true := by
    rcases habs with h | h <;> simp [falsyNum, h]
  refine ⟨?_, ?_, ?_, ?_⟩
  · simp [handleConfirm, ht, hn]
  · intro p; simp [handleConfirm, ht, hn]
  · simp [handleConfirm, ht, hn]
  · simp [handleConfirm, ht, hn, hstage]

/-- Witness for confirm_aborts_without_coordinate. -/
theorem confirm_aborts_without_coordinate_witness :
    Effect.alert "Ative seu GPS para pedir uma corrida." ∈
      (handleConfirm (some "u1") "Minha Localizacao" "Shopping Center"
        initialRideState none (Except.ok 7)).2 ∧
    (∀ p, Effect.insertRide p ∉
      (handleConfirm (some "u1") "Minha Localizacao" "Shopping Center"
        initialRideState none (Except.ok 7)).2) ∧
    (handleConfirm (some "u1") "Minha Localizacao" "Shopping Center"
        initialRideState none (Except.ok 7)).1 = initialRideState ∧
    (handleConfirm (some "u1") "Minha Localizacao" "Shopping Center"
        initialRideState none (Except.ok 7)).1.stage = Stage.none :=
  confirm_aborts_without_coordinate (some "u1") "u1" "Minha Localizacao"
    "Shopping Center" initialRideState (Except.ok 7) (by decide) rfl
    (Or.inl rfl) rfl

/-- C10: a stored coordinate equal to 0 is treated as absent by the
falsy guard: handleConfirm performs the on-demand geolocation fetch, a
failing fetch aborts the whole action with the GPS alert and no insert,
and a successful fetch supplies the fetched coordinates to the insert in
place of the stored ones. -/
theorem zero_coordinate_treated_absent (user : Option String)
    (uid fromLoc toDest : String) (rs : RideState) (geo : Option (ℚ × ℚ))
    (insertRes : Except Unit Nat)
    (ht : blankAfterTrim toDest = false) (hu : user = some uid)
    (hzero : rs.originLat = some 0 ∨ rs.originLng = some 0) :
    Effect.geoFetch ∈ (handleConfirm user fromLoc toDest rs geo insertRes).2 ∧
    (geo = none →
      (handleConfirm user fromLoc toDest rs geo insertRes).1 = rs ∧
      Effect.alert "Ative seu GPS para pedir uma corrida." ∈
        (handleConfirm user fromLoc toDest rs geo insertRes).2 ∧
      ∀ p, Effect.insertRide p ∉ (handleConfirm user fromLoc toDest rs geo insertRes).2) ∧
    (∀ la ln, geo = some (la, ln) →
      ∀ p, Effect.insertRide p ∈ (handleConfirm user fromLoc toDest rs geo insertRes).2 →
        p.origin_latitude = la ∧ p.origin_longitude = ln) := by
  subst hu
  have hn : (falsyNum rs.originLat || falsyNum rs.originLng) = true := by
    rcases hzero with h | h <;> simp [falsyNum, h]
  refine ⟨?_, ?_, ?_⟩
  · cases hgeo : geo with
    | none => simp [handleConfirm, ht, hn, hgeo]
    | some c =>
      obtain ⟨la, ln⟩ := c
      cases insertRes <;> simp [handleConfirm, ht, hn, hgeo]
  · intro hgeo
    subst hgeo
    refine ⟨?_, ?_, ?_⟩
    · simp [handleConfirm, ht, hn]
    · simp [handleConfirm, ht, hn]
    · intro p; simp [handleConfirm, ht, hn]
  · intro la ln hgeo p hp
    subst hgeo
    cases insertRes with
    | ok rid =>
      simp [handleConfirm, ht, hn] at hp
      subst hp; exact ⟨rfl, rfl⟩
    | error e =>
      simp [handleConfirm, ht, hn] at hp
      subst hp; exact ⟨rfl, rfl⟩

/-- Witness for zero_coordinate_treated_absent: stored coordinate is
exactly 0, the fetch succeeds with a different coordinate, and the
insert carries the fetched coordinate. -/
theorem zero_coordinate_treated_absent_witness :
    Effect.geoFetch ∈
      (handleConfirm (some "u1") "Minha Localizacao" "Shopping Center"
        { initialRideState with originLat := some 0, originLng := some 0 }
        (some (7, 8)) (Except.ok 3)).2 ∧
    ((some (7, 8) : Option (ℚ × ℚ)) = none →
      (handleConfirm (some "u1") "Minha Localizacao" "Shopping Center"
        { initialRideState with originLat := some 0, originLng := some 0 }
        (some (7, 8)) (Except.ok 3)).1 =
        { initialRideState with originLat := some 0, originLng := some 0 } ∧
      Effect.alert "Ative seu GPS para pedir uma corrida." ∈
        (handleConfirm (some "u1") "Minha Localizacao" "Shopping Center"
          { initialRideState with originLat := some 0, originLng := some 0 }
          (some (7, 8)) (Except.ok 3)).2 ∧
      ∀ p, Effect.insertRide p ∉
        (handleConfirm (some "u1") "Minha Localizacao" "Shopping Center"
          { initialRideState with originLat := some 0, originLng := some 0 }
          (some (7, 8)) (Except.ok 3)).2) ∧
    (∀ la ln, (some (7, 8) : Option (ℚ × ℚ)) = some (la, ln) →
      ∀ p, Effect.insertRide p ∈
        (handleConfirm (some "u1") "Minha Localizacao" "Shopping Center"
          { initialRideState with originLat := some 0, originLng := some 0 }
          (some (7, 8)) (Except.ok 3)).2 →
        p.origin_latitude = la ∧ p.origin_longitude = ln) :=
  zero_coordinate_treated_absent (some "u1") "u1" "Minha Localizacao"
    "Shopping Center"
    { initialRideState with originLat := some 0, originLng := some 0 }
    (some (7, 8)) (Except.ok 3) (by decide) rfl (Or.inl rfl)
